import Mathlib

/-!
Verification development for the hotel-frontend route layer.

The definitions below are a shallow embedding of `src/routes.py` and
`src/ua_detect.py`: Python strings become `String`, Python `None`/optional
values become `Option`, timestamps become `Int` (seconds), HTTP failures
become `Except Nat` carrying the status code, and database rows become
plain structures held in lists.  Handlers that mutate the store are
modelled as pure state-passing functions.
-/

/-! ## String helpers (Python `in`, truthiness, `or`) -/

/-- Python `needle in s` (substring containment). -/
def strContains (s pat : String) : Bool :=
  decide (pat.toList <:+: s.toList)

/-- Python `str.lower()` (ASCII case folding, which covers the inputs used here). -/
def pyLower (s : String) : String :=
  ⟨s.toList.map Char.toLower⟩

/-- Python `str.strip()`: drop whitespace from both ends. -/
def pyStrip (s : String) : String :=
  ⟨((s.toList.dropWhile Char.isWhitespace).reverse.dropWhile Char.isWhitespace).reverse⟩

/-- Python truthiness of an optional string (`None` and `""` are falsy). -/
def truthy (o : Option String) : Bool :=
  match o with
  | none => false
  | some s => s ≠ ""

/-- Python `a or b` on optional strings: `b` when `a` is falsy. -/
def pyOrStr (a b : Option String) : Option String :=
  match a with
  | none => b
  | some s => if s = "" then b else some s

/-! ## `ua_detect.py` -/

/-- Structure `ClientProfile` from `ua_detect.py`. -/
structure ClientProfile where
  kind : String
  is_android : Bool
  is_ios : Bool
deriving DecidableEq, Repr

/-- Function `_contains_any` from `ua_detect.py`. -/
def contains_any (s : String) (needles : List String) : Bool :=
  needles.any (fun n => strContains (pyLower s) (pyLower n))

/-- Function `detect_client_profile` from `ua_detect.py`. -/
def detect_client_profile (user_agent : Option String) : ClientProfile :=
  let ua := pyStrip (user_agent.getD "")
  if ua = "" then ⟨"DESKTOP", false, false⟩
  else
    let ua_l := pyLower ua
    let is_android := strContains ua_l "android"
    let is_ios := contains_any ua_l ["iphone", "ipad", "ipod"]
    if strContains ua_l "ipad" then ⟨"TABLET", false, true⟩
    else if is_android then
      if strContains ua_l "mobile" then ⟨"MOBILE", true, false⟩
      else ⟨"TABLET", true, false⟩
    else if contains_any ua_l
        ["tablet", "kindle", "silk/", "playbook", "sm-t", "nexus 7", "nexus 9", "xoom"] then
      ⟨"TABLET", false, false⟩
    else if contains_any ua_l
        ["mobi", "iphone", "ipod", "windows phone", "blackberry", "opera mini", "opera mobi"] then
      ⟨"MOBILE", false, is_ios⟩
    else ⟨"DESKTOP", false, is_ios⟩

/-! ## Data model (`db/models` rows as used by `routes.py`) -/

inductive ReportType
  | FIND
  | ISSUE
deriving DecidableEq, Repr

inductive ReportStatus
  | OPEN
  | DONE
deriving DecidableEq, Repr

inductive HistoryActorType
  | DEVICE
  | ADMIN
deriving DecidableEq, Repr

inductive ReportHistoryAction
  | CREATED
  | MARK_DONE
  | REOPEN
  | DELETE
deriving DecidableEq, Repr

inductive DeviceStatus
  | PENDING
  | ACTIVE
  | REVOKED
deriving DecidableEq, Repr

/-- A `Report` row.  Timestamps are seconds (`Int`, UTC); `room` is stored
as a string, as in the database. -/
structure Report where
  id : Nat
  report_type : ReportType
  status : ReportStatus
  room : String
  description : String
  created_at : Int
  done_at : Option Int
  done_by_device_id : Option Nat
  created_by_device_id : Nat
deriving DecidableEq, Repr

/-- A `ReportHistory` row as inserted by the handlers in `routes.py`. -/
structure ReportHistory where
  report_id : Nat
  action : ReportHistoryAction
  actor_type : HistoryActorType
  actor_device_id : Option Nat
  actor_admin_session : Option String
  from_status : ReportStatus
  to_status : ReportStatus
  note : Option String
deriving DecidableEq, Repr

/-- A `ReportPhoto` row. -/
structure ReportPhoto where
  id : Nat
  report_id : Nat
  size_bytes : Nat
  sort_order : Nat
deriving DecidableEq, Repr

/-- A `Device` row.  `roles` is a set of role keys, as in the ORM model. -/
structure Device where
  id : Nat
  device_id : String
  display_name : String
  status : DeviceStatus
  roles : Finset String
  created_at : Int
  activated_at : Option Int
  revoked_at : Option Int
  last_seen_at : Option Int
deriving DecidableEq

/-! ## Report lifecycle (`admin_report_done`, `admin_report_reopen`) -/

/-- The state-changing body of `admin_report_done` (routes.py:544-561):
the transition applied to one report together with the history table. -/
def mark_done (r : Report) (hist : List ReportHistory) (now : Int) :
    Report × List ReportHistory :=
  if r.status ≠ ReportStatus.DONE then
    let r' := { r with
      status := ReportStatus.DONE
      done_at := some now
      done_by_device_id := none }
    (r', hist ++ [{
      report_id := r.id
      action := ReportHistoryAction.MARK_DONE
      actor_type := HistoryActorType.ADMIN
      actor_device_id := none
      actor_admin_session := none
      from_status := r.status
      to_status := ReportStatus.DONE
      note := none }])
  else (r, hist)

/-- The state-changing body of `admin_report_reopen` (routes.py:579-596). -/
def reopen (r : Report) (hist : List ReportHistory) (now : Int) :
    Report × List ReportHistory :=
  let _ := now
  if r.status ≠ ReportStatus.OPEN then
    let r' := { r with
      status := ReportStatus.OPEN
      done_at := none
      done_by_device_id := none }
    (r', hist ++ [{
      report_id := r.id
      action := ReportHistoryAction.REOPEN
      actor_type := HistoryActorType.ADMIN
      actor_device_id := none
      actor_admin_session := none
      from_status := r.status
      to_status := ReportStatus.OPEN
      note := none }])
  else (r, hist)

/-- A sequence element for the lifecycle operations of §4.2. -/
inductive LifecycleOp
  | markDoneOp (now : Int)
  | reopenOp (now : Int)
deriving DecidableEq, Repr

/-- Apply one lifecycle operation to a report (history dropped). -/
def applyLifecycleOp (r : Report) (op : LifecycleOp) : Report :=
  match op with
  | LifecycleOp.markDoneOp now => (mark_done r [] now).1
  | LifecycleOp.reopenOp now => (reopen r [] now).1

/-- The invariant of §3: `done_at` is non-null iff `status == DONE`. -/
def doneInvariant (r : Report) : Prop :=
  r.done_at ≠ none ↔ r.status = ReportStatus.DONE

instance : DecidablePred doneInvariant := fun r => by
  unfold doneInvariant; infer_instance

/-! ## Report deletion (`admin_report_delete`) -/

/-- The persistent store as seen by the report handlers. -/
structure Store where
  reports : List Report
  photos : List ReportPhoto
  history : List ReportHistory
deriving DecidableEq, Repr

/-- Ordered side effects of the delete handler. -/
inductive DeleteEvent
  | dbCommit
  | mediaDeleteAttempt
deriving DecidableEq, Repr

/-- Call `MediaStorage.delete_report`, abstracted: the call either returns or
raises; `fails` selects which. -/
def mediaDeleteReport (fails : Bool) : Except Unit Unit :=
  if fails then Except.error () else Except.ok ()

/-- Handler `admin_report_delete` (routes.py:601-623).  Modelled from the spec:
the cascade from a report to its photos and history rows lives in the ORM
model definitions (outside this excerpt); per §3 both are owned by the
report and removed with it.  The handler commits the database deletion and
only then attempts the media removal, swallowing any failure
(`try/except: pass`).  The event list records the order. -/
def admin_report_delete (db : Store) (report_id : Nat) (mediaDeleteFails : Bool) :
    Except Nat (Store × List DeleteEvent) :=
  match db.reports.find? (fun r => r.id == report_id) with
  | none => Except.error 404
  | some _ =>
    let db' : Store := {
      reports := db.reports.filter (fun r => !(r.id == report_id))
      photos := db.photos.filter (fun p => !(p.report_id == report_id))
      history := db.history.filter (fun h => !(h.report_id == report_id)) }
    let afterCommit : List DeleteEvent := [DeleteEvent.dbCommit]
    let afterMedia : List DeleteEvent :=
      match mediaDeleteReport mediaDeleteFails with
      | Except.ok _ => afterCommit ++ [DeleteEvent.mediaDeleteAttempt]
      | Except.error _ => afterCommit ++ [DeleteEvent.mediaDeleteAttempt]
    Except.ok (db', afterMedia)

/-! ## Device role management (`admin_device_activate`, `admin_device_roles`) -/

/-- Keys of `WEB_APP_ROLES` (routes.py:52-57). -/
def WEB_APP_ROLES : List (String × String) :=
  [("housekeeping", "Pokojská"),
   ("frontdesk", "Recepce"),
   ("maintenance", "Údržba"),
   ("breakfast", "Snídaně")]

def allowed_role_keys : List String := WEB_APP_ROLES.map Prod.fst

/-- Python set comprehension `{r.strip().lower() for r in roles if r.strip().lower() in allowed_role_keys}`. -/
def selected_roles (roles : List String) : Finset String :=
  ((roles.map (fun r => pyLower (pyStrip r))).filter
    (fun r => allowed_role_keys.contains r)).toFinset

/-- The state-changing body of `admin_device_activate` (routes.py:726-734),
applied to the targeted device. -/
def admin_device_activate (d : Device) (roles : List String) (now : Int) : Device :=
  if d.status = DeviceStatus.PENDING then
    let sel := selected_roles roles
    let d1 := if sel ≠ ∅ then { d with roles := sel } else d
    { d1 with status := DeviceStatus.ACTIVE, activated_at := some now }
  else d

/-- The state-changing body of `admin_device_roles` (routes.py:755-763),
applied to the targeted device. -/
def admin_device_roles (d : Device) (roles : List String) : Device :=
  if d.status ≠ DeviceStatus.ACTIVE then d
  else { d with roles := selected_roles roles }

/-! ## Role-gated staff page (`web_app_role`) -/

/-- Handler `web_app_role` (routes.py:148-179), reduced to its authorization
outcome: `Except.ok` carries the role title of the rendered page. -/
def web_app_role (devices : List Device) (role : String)
    (header_device_id cookie_device_id : Option String) : Except Nat String :=
  let role_key := pyLower (pyStrip role)
  match WEB_APP_ROLES.lookup role_key with
  | none => Except.error 404
  | some role_title =>
    let device_id := pyOrStr header_device_id cookie_device_id
    let device : Option Device :=
      match device_id with
      | none => none
      | some s =>
        if s = "" then none
        else devices.find? (fun d => d.device_id == pyStrip s)
    match device with
    | some d =>
      if d.roles ≠ ∅ ∧ role_key ∉ d.roles then Except.error 403
      else Except.ok role_title
    | none => Except.ok role_title

/-! ## Media resolution (`admin_media`) -/

/-- A decoded/encoded image file as far as the handler observes it. -/
structure ImageFile where
  width : Nat
  height : Nat
  format : String
  progressive : Bool
  quality : Nat
deriving DecidableEq, Repr

/-- The two media paths of one photo (`get_media_paths_for_photo` is an
external path mapper; only existence and contents matter here). -/
structure MediaState where
  orig : Option ImageFile
  thumb : Option ImageFile
deriving DecidableEq, Repr

/-- Modelled from the spec (§4.4): the external image call
(`PIL Image.thumbnail((480,480))` plus the progressive-JPEG save at
quality 75) constrains the longer edge to at most 480 pixels, preserving
aspect ratio, leaving images already within bounds unscaled. -/
def genThumbImage (img : ImageFile) : ImageFile :=
  let wh :=
    if img.width ≤ 480 ∧ img.height ≤ 480 then (img.width, img.height)
    else if img.height ≤ img.width then (480, max 1 (img.height * 480 / img.width))
    else (max 1 (img.width * 480 / img.height), 480)
  { width := wh.1, height := wh.2, format := "JPEG", progressive := true, quality := 75 }

/-- Handler `admin_media` (routes.py:905-944).  The flag `genFails` abstracts the
`try/except` around decode/resize/save: when true the generation raises
and the handler falls through.  On success the result carries the updated
media state (thumbnail persisted) and the served file. -/
def admin_media (photos : List ReportPhoto) (photo_id : Nat) (kind : String)
    (media : MediaState) (genFails : Bool) : Except Nat (MediaState × ImageFile) :=
  if kind ≠ "thumb" ∧ kind ≠ "original" then Except.error 400
  else
    match photos.find? (fun p => p.id == photo_id) with
    | none => Except.error 404
    | some _ =>
      match (if kind = "thumb" then media.thumb else media.orig) with
      | some f => Except.ok (media, f)
      | none =>
        if kind = "thumb" then
          match media.orig with
          | some origImg =>
            if genFails then Except.error 404
            else
              let t := genThumbImage origImg
              Except.ok ({ media with thumb := some t }, t)
          | none => Except.error 404
        else Except.error 404

/-! ## Report listing (`admin_reports_list`) -/

/-- Constant `ROOMS_ALLOWED` (routes.py:46-50): 101-109, 201-210, 301-310. -/
def ROOMS_ALLOWED : List Int :=
  ((List.range 9).map (fun i => (101 : Int) + i)) ++
  ((List.range 10).map (fun i => (201 : Int) + i)) ++
  ((List.range 10).map (fun i => (301 : Int) + i))

/-- Enum coercion `ReportType(category)`: succeeds exactly on the enum values. -/
def parseReportType (s : String) : Option ReportType :=
  if s = "FIND" then some ReportType.FIND
  else if s = "ISSUE" then some ReportType.ISSUE
  else none

/-- Enum coercion `ReportStatus(status)`: succeeds exactly on the enum values. -/
def parseReportStatus (s : String) : Option ReportStatus :=
  if s = "OPEN" then some ReportStatus.OPEN
  else if s = "DONE" then some ReportStatus.DONE
  else none

def isLeapYear (y : Nat) : Bool :=
  (y % 4 == 0 && y % 100 != 0) || (y % 400 == 0)

def daysInMonth (y m : Nat) : Nat :=
  if m = 2 then (if isLeapYear y then 29 else 28)
  else if m = 4 ∨ m = 6 ∨ m = 9 ∨ m = 11 then 30
  else 31

def digitVal (c : Char) : Option Nat :=
  if c.isDigit then some (c.toNat - 48) else none

/-- Parser `date.fromisoformat` / `_parse_date_filter` (routes.py:118-122) in its
basic `YYYY-MM-DD` form (the stdlib parser is external to this excerpt). -/
def parseIsoDate (s : String) : Option (Nat × Nat × Nat) :=
  match s.toList with
  | [y1, y2, y3, y4, c1, m1, m2, c2, d1, d2] =>
    if c1 = '-' ∧ c2 = '-' then do
      let a ← digitVal y1
      let b ← digitVal y2
      let c ← digitVal y3
      let d ← digitVal y4
      let e ← digitVal m1
      let f ← digitVal m2
      let g ← digitVal d1
      let h ← digitVal d2
      let y := ((a * 10 + b) * 10 + c) * 10 + d
      let m := e * 10 + f
      let dd := g * 10 + h
      if 1 ≤ m ∧ m ≤ 12 ∧ 1 ≤ dd ∧ dd ≤ daysInMonth y m then some (y, m, dd)
      else none
    else none
  | _ => none

/-- Proleptic-Gregorian ordinal of a civil date (`date.toordinal`). -/
def dayOrdinal (y m d : Nat) : Nat :=
  let yy := y - 1
  let daysBefore := yy * 365 + yy / 4 - yy / 100 + yy / 400
  let monthDays := [0, 31, 59, 90, 120, 151, 181, 212, 243, 273, 304, 334].getD (m - 1) 0
  let leapAdj := if 3 ≤ m ∧ isLeapYear y then 1 else 0
  daysBefore + monthDays + leapAdj + d

/-- Value `datetime(day.year, day.month, day.day, tzinfo=utc)` as epoch seconds
(719163 is the ordinal of 1970-01-01). -/
def dateStartEpoch (y m d : Nat) : Int :=
  ((dayOrdinal y m d : Int) - 719163) * 86400

/-- Query parameters of `admin_reports_list` (routes.py:329-339). -/
structure ListParams where
  category : Option String := none
  status : Option String := none
  room : Option Int := none
  date : Option String := none
  sort : String := "created_desc"
  page : Int := 1
  per_page : Int := 25
  type : Option String := none
deriving DecidableEq, Repr

/-- Alias line `if not category and type: category = type` (routes.py:343-344). -/
def effectiveCategory (category ty : Option String) : Option String :=
  if ¬ truthy category ∧ truthy ty then ty else category

/-- Clamp `page = max(1, min(page, 10_000))` (routes.py:346). -/
def clampPage (page : Int) : Nat :=
  (max 1 (min page 10000)).toNat

/-- Clamp `per_page = max(10, min(per_page, 100))` (routes.py:347). -/
def clampPerPage (per_page : Int) : Nat :=
  (max 10 (min per_page 100)).toNat

/-- Category filter step (routes.py:351-355). -/
def filterCategory (category : Option String) (rows : List Report) :
    Except Nat (List Report) :=
  if truthy category then
    match parseReportType (category.getD "") with
    | some t => Except.ok (rows.filter (fun r => r.report_type == t))
    | none => Except.error 400
  else Except.ok rows

/-- Status filter step (routes.py:357-361). -/
def filterStatus (status : Option String) (rows : List Report) :
    Except Nat (List Report) :=
  if truthy status then
    match parseReportStatus (status.getD "") with
    | some st => Except.ok (rows.filter (fun r => r.status == st))
    | none => Except.error 400
  else Except.ok rows

/-- Room filter step (routes.py:363-366). -/
def filterRoom (room : Option Int) (rows : List Report) :
    Except Nat (List Report) :=
  match room with
  | none => Except.ok rows
  | some rm =>
    if rm ∈ ROOMS_ALLOWED then Except.ok (rows.filter (fun r => r.room == toString rm))
    else Except.error 400

/-- Date filter step (routes.py:368-372). -/
def filterDate (dateParam : Option String) (rows : List Report) :
    Except Nat (List Report) :=
  if truthy dateParam then
    match parseIsoDate (dateParam.getD "") with
    | some (y, m, d) =>
      let start := dateStartEpoch y m d
      let stop := start + 86400
      Except.ok (rows.filter (fun r =>
        decide (start ≤ r.created_at) && decide (r.created_at < stop)))
    | none => Except.error 400
  else Except.ok rows

/-- Enum ordering as the database sees it: the stored string value. -/
def statusSortValue : ReportStatus → String
  | ReportStatus.OPEN => "OPEN"
  | ReportStatus.DONE => "DONE"

def cmpCreatedDesc (a b : Report) : Prop := b.created_at ≤ a.created_at

def cmpCreatedAsc (a b : Report) : Prop := a.created_at ≤ b.created_at

def cmpRoomAsc (a b : Report) : Prop :=
  a.room < b.room ∨ (a.room = b.room ∧ b.created_at ≤ a.created_at)

def cmpRoomDesc (a b : Report) : Prop :=
  b.room < a.room ∨ (a.room = b.room ∧ b.created_at ≤ a.created_at)

def cmpStatusAsc (a b : Report) : Prop :=
  statusSortValue a.status < statusSortValue b.status ∨
    (statusSortValue a.status = statusSortValue b.status ∧ b.created_at ≤ a.created_at)

def cmpStatusDesc (a b : Report) : Prop :=
  statusSortValue b.status < statusSortValue a.status ∨
    (statusSortValue a.status = statusSortValue b.status ∧ b.created_at ≤ a.created_at)

instance : DecidableRel cmpCreatedDesc := fun a b => by unfold cmpCreatedDesc; infer_instance

instance : DecidableRel cmpCreatedAsc := fun a b => by unfold cmpCreatedAsc; infer_instance

instance : DecidableRel cmpRoomAsc := fun a b => by unfold cmpRoomAsc; infer_instance

instance : DecidableRel cmpRoomDesc := fun a b => by unfold cmpRoomDesc; infer_instance

instance : DecidableRel cmpStatusAsc := fun a b => by unfold cmpStatusAsc; infer_instance

instance : DecidableRel cmpStatusDesc := fun a b => by unfold cmpStatusDesc; infer_instance

/-- Sort dispatch for ORDER BY (routes.py:374-387): the six recognized sort keys;
anything else is a 400. -/
def sortRows (sort : String) (rows : List Report) : Except Nat (List Report) :=
  if sort = "created_desc" then Except.ok (rows.insertionSort cmpCreatedDesc)
  else if sort = "created_asc" then Except.ok (rows.insertionSort cmpCreatedAsc)
  else if sort = "room_asc" then Except.ok (rows.insertionSort cmpRoomAsc)
  else if sort = "room_desc" then Except.ok (rows.insertionSort cmpRoomDesc)
  else if sort = "status_asc" then Except.ok (rows.insertionSort cmpStatusAsc)
  else if sort = "status_desc" then Except.ok (rows.insertionSort cmpStatusDesc)
  else Except.error 400

/-- The filter pipeline (routes.py:349-372) in handler order. -/
def filtersOnly (db : List Report) (p : ListParams) : Except Nat (List Report) := do
  let r1 ← filterCategory (effectiveCategory p.category p.type) db
  let r2 ← filterStatus p.status r1
  let r3 ← filterRoom p.room r2
  filterDate p.date r3

/-- Filtered then sorted rows (the statement before offset/limit). -/
def filteredSorted (db : List Report) (p : ListParams) : Except Nat (List Report) := do
  let rows ← filtersOnly db p
  sortRows p.sort rows

/-- Page count `pages_total = max(1, ((total - 1) // per_page) + 1) if total > 0 else 1`
(routes.py:390). -/
def pagesTotalCalc (total per_page : Nat) : Nat :=
  if total > 0 then max 1 ((total - 1) / per_page + 1) else 1

/-- Slice `stmt.offset((page - 1) * per_page).limit(per_page)` (routes.py:392). -/
def pageSlice (rows : List Report) (page per_page : Nat) : List Report :=
  (rows.drop ((page - 1) * per_page)).take per_page

/-- What the listing returns (routes.py:441-444): count, page count and
the page's rows. -/
structure ListingResult where
  total : Nat
  pages_total : Nat
  page : Nat
  per_page : Nat
  rows : List Report
deriving DecidableEq, Repr

/-- Handler `admin_reports_list` (routes.py:328-454), stripped to filter,
validation, count, pagination and row selection. -/
def admin_reports_list (db : List Report) (p : ListParams) :
    Except Nat ListingResult := do
  let page := clampPage p.page
  let per_page := clampPerPage p.per_page
  let sorted ← filteredSorted db p
  let total := sorted.length
  pure {
    total := total
    pages_total := pagesTotalCalc total per_page
    page := page
    per_page := per_page
    rows := pageSlice sorted page per_page }

/-- The six recognized sort keys (routes.py:374-385). -/
def sortKeys : List String :=
  ["created_desc", "created_asc", "room_asc", "room_desc", "status_asc", "status_desc"]

/-- Validity of the category parameter: absent, or a recognized value. -/
def catGuard (c : Option String) : Bool :=
  !truthy c || (parseReportType (c.getD "")).isSome

/-- Validity of the status parameter: absent, or a recognized value. -/
def statusGuard (s : Option String) : Bool :=
  !truthy s || (parseReportStatus (s.getD "")).isSome

/-- Validity of the room parameter: absent, or in the allowed room set. -/
def roomGuard (r : Option Int) : Bool :=
  match r with
  | none => true
  | some rm => decide (rm ∈ ROOMS_ALLOWED)

/-- Validity of the date parameter: absent, or parsable. -/
def dateGuard (d : Option String) : Bool :=
  !truthy d || (parseIsoDate (d.getD "")).isSome

/-- Validity of the sort key. -/
def sortGuard (s : String) : Bool :=
  sortKeys.contains s

/-- All listing parameter validations together (the filter and sort
inputs that `admin_reports_list` accepts). -/
def listingParamsValid (p : ListParams) : Bool :=
  catGuard (effectiveCategory p.category p.type) && statusGuard p.status &&
    roomGuard p.room && dateGuard p.date && sortGuard p.sort

instance {ε α : Type} [DecidableEq ε] [DecidableEq α] : DecidableEq (Except ε α) := fun x y =>
  match x, y with
  | Except.ok a, Except.ok b =>
    if h : a = b then isTrue (by rw [h]) else isFalse (by intro hh; cases hh; exact h rfl)
  | Except.ok _, Except.error _ => isFalse (by intro hh; cases hh)
  | Except.error _, Except.ok _ => isFalse (by intro hh; cases hh)
  | Except.error e, Except.error f =>
    if h : e = f then isTrue (by rw [h]) else isFalse (by intro hh; cases hh; exact h rfl)

/-! ## Concrete fixtures (used by witnesses and counterexamples) -/

def fixtureReport : Report where
  id := 1
  report_type := ReportType.FIND
  status := ReportStatus.OPEN
  room := "101"
  description := "wallet"
  created_at := 100
  done_at := none
  done_by_device_id := none
  created_by_device_id := 7

def fixtureReportB : Report :=
  { fixtureReport with id := 2, created_at := 200 }

def fixtureDb : List Report := [fixtureReport, fixtureReportB]

def fixtureDoneReport : Report :=
  { fixtureReport with id := 3, status := ReportStatus.DONE, done_at := some 150 }

def fixtureStore : Store where
  reports := [fixtureReport, fixtureReportB]
  photos := [{ id := 10, report_id := 1, size_bytes := 4096, sort_order := 0 },
             { id := 11, report_id := 2, size_bytes := 2048, sort_order := 0 }]
  history := [{ report_id := 1, action := ReportHistoryAction.CREATED,
                actor_type := HistoryActorType.DEVICE, actor_device_id := some 7,
                actor_admin_session := none, from_status := ReportStatus.OPEN,
                to_status := ReportStatus.OPEN, note := none }]

def fixturePendingDevice : Device where
  id := 1
  device_id := "dev-1"
  display_name := "Tablet vrátnice"
  status := DeviceStatus.PENDING
  roles := ∅
  created_at := 50
  activated_at := none
  revoked_at := none
  last_seen_at := none

def fixtureActiveDevice : Device :=
  { fixturePendingDevice with
      id := 2, device_id := "dev-2", status := DeviceStatus.ACTIVE,
      roles := {"housekeeping", "breakfast"}, activated_at := some 60 }

def fixtureImage : ImageFile where
  width := 1920
  height := 1080
  format := "PNG"
  progressive := false
  quality := 100

/-- Counterexample fixture for the pagination round trip: 100001 matching
reports at 10 per page give 10001 pages, one past the 10000 page clamp. -/
def cexDb : List Report := List.replicate 100001 fixtureReport

def cexParams : ListParams := { per_page := 10 }

def cexSorted : List Report := cexDb.insertionSort cmpCreatedDesc

/-- The rows served for page `k` of the counterexample listing. -/
def cexPageRows (k : Nat) : List Report :=
  match admin_reports_list cexDb { cexParams with page := (k : Int) } with
  | Except.ok res => res.rows
  | Except.error _ => []

/-! ## General lemmas -/

theorem strContains_ne_empty {s pat : String} (hpat : pat ≠ "")
    (h : strContains s pat = true) : s ≠ "" := by
  intro hs
  subst hs
  have h' : pat.toList <:+: ("" : String).toList := of_decide_eq_true h
  have : pat.toList = [] := List.eq_nil_of_infix_nil h'
  exact hpat (by cases pat; simpa [String.toList, String.data] using congrArg String.mk this)

theorem pyLower_empty : pyLower "" = "" := by decide

theorem lt_div_succ_mul (a b : Nat) (hb : 0 < b) : a < (a / b + 1) * b :=
  calc a = b * (a / b) + a % b := (Nat.div_add_mod a b).symm
    _ < b * (a / b) + b := Nat.add_lt_add_left (Nat.mod_lt a hb) _
    _ = (a / b + 1) * b := by ring

/-- Splitting a list into `per_page`-sized chunks indexed by `range n`
yields its first `n * per_page` elements. -/
theorem flatMap_range_drop_take {α : Type} (pp : Nat) (l : List α) :
    ∀ n : Nat, (List.range n).flatMap (fun i => (l.drop (i * pp)).take pp) = l.take (n * pp)
  | 0 => by simp
  | n + 1 => by
    rw [List.range_succ, List.flatMap_append, flatMap_range_drop_take pp l n]
    simp only [List.flatMap_cons, List.flatMap_nil, List.append_nil]
    rw [Nat.succ_mul, List.take_add]

theorem pagesTotalCalc_mul_ge (total pp : Nat) (hpp : 0 < pp) :
    total ≤ pagesTotalCalc total pp * pp := by
  unfold pagesTotalCalc
  rcases Nat.eq_zero_or_pos total with h0 | hpos
  · simp [h0]
  · rw [if_pos hpos, Nat.max_eq_right (Nat.le_add_left 1 _)]
    exact Nat.le_of_pred_lt (lt_div_succ_mul (total - 1) pp hpp)

theorem pagesTotalCalc_eq_ceil (total pp : Nat) (hpp : 0 < pp) :
    pagesTotalCalc total pp = max 1 ((total + pp - 1) / pp) := by
  unfold pagesTotalCalc
  rcases Nat.eq_zero_or_pos total with h0 | hpos
  · subst h0
    rw [if_neg (by omega)]
    have h1 : (0 + pp - 1) / pp = 0 := Nat.div_eq_of_lt (by omega)
    rw [h1]
    omega
  · rw [if_pos hpos]
    have h1 : total + pp - 1 = (total - 1) + pp := by omega
    rw [h1, Nat.add_div_right _ hpp]





/-! ## Claim theorems -/

/-- C7: the client classifier is a pure deterministic function of the
User-Agent string.  Empty or absent input yields DESKTOP with both
platform flags false; the iPad rule fires first (the spec's example UA
gives TABLET); after it, an Android marker yields MOBILE when a "mobile"
substring is also present and TABLET otherwise (the TABLET case holds even
without excluding iPad, since that rule also answers TABLET). -/
theorem c7_client_classifier :
    (detect_client_profile none = ⟨"DESKTOP", false, false⟩) ∧
    (∀ ua : String, pyStrip ua = "" →
      detect_client_profile (some ua) = ⟨"DESKTOP", false, false⟩) ∧
    (detect_client_profile (some "Mozilla/5.0 (iPad; CPU OS 15_0)") =
      ⟨"TABLET", false, true⟩) ∧
    (∀ ua : String, strContains (pyLower (pyStrip ua)) "ipad" = true →
      (detect_client_profile (some ua)).kind = "TABLET") ∧
    (∀ ua : String, strContains (pyLower (pyStrip ua)) "ipad" = false →
      strContains (pyLower (pyStrip ua)) "android" = true →
      strContains (pyLower (pyStrip ua)) "mobile" = true →
      detect_client_profile (some ua) = ⟨"MOBILE", true, false⟩) ∧
    (∀ ua : String, strContains (pyLower (pyStrip ua)) "android" = true →
      strContains (pyLower (pyStrip ua)) "mobile" = false →
      (detect_client_profile (some ua)).kind = "TABLET") := by
  have hne : ∀ ua : String, ∀ pat : String, pat ≠ "" →
      strContains (pyLower (pyStrip ua)) pat = true → ¬ (pyStrip ua = "") := by
    intro ua pat hpat h hs
    rw [hs, pyLower_empty] at h
    exact strContains_ne_empty hpat h rfl
  refine ⟨by decide, ?_, by decide, ?_, ?_, ?_⟩
  · intro ua h
    simp only [detect_client_profile, Option.getD]
    rw [if_pos h]
  · intro ua h
    simp only [detect_client_profile, Option.getD]
    rw [if_neg (hne ua "ipad" (by decide) h)]
    simp only [h, if_true]
  · intro ua hip ha hm
    simp only [detect_client_profile, Option.getD]
    rw [if_neg (hne ua "android" (by decide) ha)]
    simp only [hip, ha, hm, if_true, if_false, Bool.false_eq_true]
  · intro ua ha hm
    by_cases hip : strContains (pyLower (pyStrip ua)) "ipad" = true
    · simp only [detect_client_profile, Option.getD]
      rw [if_neg (hne ua "android" (by decide) ha)]
      simp only [hip, if_true]
    · simp only [detect_client_profile, Option.getD]
      rw [if_neg (hne ua "android" (by decide) ha)]
      simp only [hip, ha, hm, if_true, if_false, Bool.false_eq_true]

/-- Witness for C7 at concrete User-Agent strings. -/
theorem c7_client_classifier_witness :
    detect_client_profile (some " Android phone Mobile ") = ⟨"MOBILE", true, false⟩ ∧
    (detect_client_profile (some "Android tablet")).kind = "TABLET" ∧
    detect_client_profile (some "   ") = ⟨"DESKTOP", false, false⟩ :=
  ⟨c7_client_classifier.2.2.2.2.1 " Android phone Mobile "
      (by decide) (by decide) (by decide),
   c7_client_classifier.2.2.2.2.2 "Android tablet" (by decide) (by decide),
   c7_client_classifier.2.1 "   " (by decide)⟩

/-- C1: `mark_done` on a report not in DONE sets status=DONE, sets
`done_at` to now, nulls the resolving-device reference and appends exactly
one ADMIN history row recording prior status → DONE; `reopen` on a report
not in OPEN sets status=OPEN, clears `done_at` and the device reference
and appends exactly one ADMIN history row recording prior status → OPEN;
a transition whose target state already holds changes nothing and appends
nothing. -/
theorem c1_lifecycle (r : Report) (hist : List ReportHistory) (now : Int) :
    (r.status ≠ ReportStatus.DONE →
      mark_done r hist now =
        ({ r with status := ReportStatus.DONE, done_at := some now,
                  done_by_device_id := none },
         hist ++ [{ report_id := r.id, action := ReportHistoryAction.MARK_DONE,
                    actor_type := HistoryActorType.ADMIN, actor_device_id := none,
                    actor_admin_session := none, from_status := r.status,
                    to_status := ReportStatus.DONE, note := none }])) ∧
    (r.status = ReportStatus.DONE → mark_done r hist now = (r, hist)) ∧
    (r.status ≠ ReportStatus.OPEN →
      reopen r hist now =
        ({ r with status := ReportStatus.OPEN, done_at := none,
                  done_by_device_id := none },
         hist ++ [{ report_id := r.id, action := ReportHistoryAction.REOPEN,
                    actor_type := HistoryActorType.ADMIN, actor_device_id := none,
                    actor_admin_session := none, from_status := r.status,
                    to_status := ReportStatus.OPEN, note := none }])) ∧
    (r.status = ReportStatus.OPEN → reopen r hist now = (r, hist)) := by
  refine ⟨?_, ?_, ?_, ?_⟩
  · intro h
    unfold mark_done
    rw [if_pos h]
  · intro h
    unfold mark_done
    rw [if_neg (by simp [h])]
  · intro h
    unfold reopen
    rw [if_pos h]
  · intro h
    unfold reopen
    rw [if_neg (by simp [h])]

/-- Witness for C1: a concrete OPEN report marked done, a DONE report
marked done (no-op), and a DONE report reopened. -/
theorem c1_lifecycle_witness :
    mark_done fixtureReport [] 500 =
      ({ fixtureReport with status := ReportStatus.DONE, done_at := some 500,
                            done_by_device_id := none },
       [{ report_id := 1, action := ReportHistoryAction.MARK_DONE,
          actor_type := HistoryActorType.ADMIN, actor_device_id := none,
          actor_admin_session := none, from_status := ReportStatus.OPEN,
          to_status := ReportStatus.DONE, note := none }]) ∧
    mark_done fixtureDoneReport [] 500 = (fixtureDoneReport, []) ∧
    reopen fixtureDoneReport [] 600 =
      ({ fixtureDoneReport with status := ReportStatus.OPEN, done_at := none,
                                done_by_device_id := none },
       [{ report_id := 3, action := ReportHistoryAction.REOPEN,
          actor_type := HistoryActorType.ADMIN, actor_device_id := none,
          actor_admin_session := none, from_status := ReportStatus.DONE,
          to_status := ReportStatus.OPEN, note := none }]) :=
  ⟨(c1_lifecycle fixtureReport [] 500).1 (by decide),
   (c1_lifecycle fixtureDoneReport [] 500).2.1 (by decide),
   (c1_lifecycle fixtureDoneReport [] 600).2.2.1 (by decide)⟩

/-- C3: the invariant "`done_at` is non-null iff status is DONE" is
preserved by every sequence of `mark_done` and `reopen` calls. -/
theorem c3_done_invariant (r : Report) (ops : List LifecycleOp)
    (h : doneInvariant r) :
    doneInvariant (ops.foldl applyLifecycleOp r) := by
  induction ops generalizing r with
  | nil => exact h
  | cons op rest ih =>
    refine ih _ ?_
    cases op with
    | markDoneOp now =>
      show doneInvariant (mark_done r [] now).1
      unfold mark_done
      by_cases hs : r.status = ReportStatus.DONE
      · rw [if_neg (by simp [hs])]
        exact h
      · rw [if_pos hs]
        simp [doneInvariant]
    | reopenOp now =>
      show doneInvariant (reopen r [] now).1
      unfold reopen
      by_cases hs : r.status = ReportStatus.OPEN
      · rw [if_neg (by simp [hs])]
        exact h
      · rw [if_pos hs]
        simp [doneInvariant]

/-- Witness for C3 on a concrete report and operation sequence. -/
theorem c3_done_invariant_witness :
    doneInvariant ([LifecycleOp.markDoneOp 500, LifecycleOp.reopenOp 600,
        LifecycleOp.markDoneOp 700].foldl applyLifecycleOp fixtureReport) :=
  c3_done_invariant fixtureReport _ (by decide)

/-- C5: both role operations filter requested roles against the allowed
set (unknown values dropped); `activate` is valid only from PENDING, keeps
the existing roles when the filtered set is empty, sets ACTIVE and the
activation timestamp, and is a no-op otherwise; `set_roles` is valid only
when ACTIVE (silently no-ops otherwise) and replaces the role set even
with an empty filtered set. -/
theorem c5_device_roles (d : Device) (roles : List String) (now : Int) :
    (selected_roles roles ⊆ allowed_role_keys.toFinset) ∧
    (d.status = DeviceStatus.PENDING →
      (admin_device_activate d roles now).status = DeviceStatus.ACTIVE ∧
      (admin_device_activate d roles now).activated_at = some now ∧
      (selected_roles roles ≠ ∅ →
        (admin_device_activate d roles now).roles = selected_roles roles) ∧
      (selected_roles roles = ∅ →
        (admin_device_activate d roles now).roles = d.roles)) ∧
    (d.status ≠ DeviceStatus.PENDING → admin_device_activate d roles now = d) ∧
    (d.status = DeviceStatus.ACTIVE →
      admin_device_roles d roles = { d with roles := selected_roles roles }) ∧
    (d.status ≠ DeviceStatus.ACTIVE → admin_device_roles d roles = d) := by
  refine ⟨?_, ?_, ?_, ?_, ?_⟩
  · intro k hk
    unfold selected_roles at hk
    rw [List.mem_toFinset] at hk
    rw [List.mem_toFinset]
    have := List.of_mem_filter hk
    exact List.mem_of_elem_eq_true this
  · intro h
    refine ⟨by simp [admin_device_activate, h],
      by simp [admin_device_activate, h],
      fun hsel => by simp [admin_device_activate, h, hsel],
      fun hsel => by simp [admin_device_activate, h, hsel]⟩
  · intro h
    unfold admin_device_activate
    rw [if_neg h]
  · intro h
    unfold admin_device_roles
    rw [if_neg (by simp [h])]
  · intro h
    unfold admin_device_roles
    rw [if_pos h]

/-- Witness for C5: activating a PENDING device with one valid and one
bogus role keeps only the valid role; `set_roles` with an empty request on
an ACTIVE device clears all roles; `activate` on an ACTIVE device is a
no-op. -/
theorem c5_device_roles_witness :
    (admin_device_activate fixturePendingDevice ["housekeeping", "bogus_role"] 70).roles
        = {"housekeeping"} ∧
    (admin_device_activate fixturePendingDevice ["housekeeping", "bogus_role"] 70).status
        = DeviceStatus.ACTIVE ∧
    (admin_device_activate fixturePendingDevice ["housekeeping", "bogus_role"] 70).activated_at
        = some 70 ∧
    admin_device_roles fixtureActiveDevice [] = { fixtureActiveDevice with roles := ∅ } ∧
    admin_device_activate fixtureActiveDevice ["frontdesk"] 80 = fixtureActiveDevice := by
  have h := c5_device_roles fixturePendingDevice ["housekeeping", "bogus_role"] 70
  have h2 := c5_device_roles fixtureActiveDevice ([] : List String) 80
  have h3 := c5_device_roles fixtureActiveDevice ["frontdesk"] 80
  refine ⟨?_, (h.2.1 rfl).1, (h.2.1 rfl).2.1, ?_, h3.2.2.1 (by decide)⟩
  · rw [(h.2.1 rfl).2.2.1 (by decide)]
    decide
  · rw [h2.2.2.2.1 rfl]
    have : selected_roles ([] : List String) = ∅ := by decide
    rw [this]

/-- C6: deleting an existing report removes the report with all its photos
and history rows, commits before attempting media-file removal, and a
media-storage failure is swallowed: the committed deletion and the
successful outcome are identical whether or not the media removal fails. -/
theorem c6_report_delete (db : Store) (report_id : Nat) (fails : Bool)
    (h : (db.reports.find? (fun r => r.id == report_id)).isSome = true) :
    admin_report_delete db report_id fails =
      Except.ok
        ({ reports := db.reports.filter (fun r => !(r.id == report_id))
           photos := db.photos.filter (fun p => !(p.report_id == report_id))
           history := db.history.filter (fun h => !(h.report_id == report_id)) },
         [DeleteEvent.dbCommit, DeleteEvent.mediaDeleteAttempt]) ∧
    admin_report_delete db report_id true = admin_report_delete db report_id false ∧
    (∀ st evs, admin_report_delete db report_id fails = Except.ok (st, evs) →
      (∀ r ∈ st.reports, r.id ≠ report_id) ∧
      (∀ p ∈ st.photos, p.report_id ≠ report_id) ∧
      (∀ hr ∈ st.history, hr.report_id ≠ report_id) ∧
      (∀ r ∈ db.reports, r.id ≠ report_id → r ∈ st.reports) ∧
      (∀ p ∈ db.photos, p.report_id ≠ report_id → p ∈ st.photos) ∧
      (∀ hr ∈ db.history, hr.report_id ≠ report_id → hr ∈ st.history)) := by
  rcases Option.isSome_iff_exists.mp h with ⟨r0, hr0⟩
  have hmain : ∀ b : Bool, admin_report_delete db report_id b =
      Except.ok
        ({ reports := db.reports.filter (fun r => !(r.id == report_id))
           photos := db.photos.filter (fun p => !(p.report_id == report_id))
           history := db.history.filter (fun h => !(h.report_id == report_id)) },
         [DeleteEvent.dbCommit, DeleteEvent.mediaDeleteAttempt]) := by
    intro b
    unfold admin_report_delete
    rw [hr0]
    cases b <;> rfl
  refine ⟨hmain fails, (hmain true).trans (hmain false).symm, ?_⟩
  intro st evs hok
  rw [hmain fails] at hok
  injection hok with hok
  injection hok with hst hevs
  subst hst
  refine ⟨?_, ?_, ?_, ?_, ?_, ?_⟩
  · intro r hr
    have := List.of_mem_filter hr
    simpa using this
  · intro p hp
    have := List.of_mem_filter hp
    simpa using this
  · intro hrow hh
    have := List.of_mem_filter hh
    simpa using this
  · intro r hr hne
    exact List.mem_filter.mpr ⟨hr, by simpa using hne⟩
  · intro p hp hne
    exact List.mem_filter.mpr ⟨hp, by simpa using hne⟩
  · intro hrow hh hne
    exact List.mem_filter.mpr ⟨hh, by simpa using hne⟩

/-- Witness for C6 on a concrete two-report store, with the media removal
failing. -/
theorem c6_report_delete_witness :
    admin_report_delete fixtureStore 1 true =
      Except.ok
        ({ reports := [fixtureReportB],
           photos := [{ id := 11, report_id := 2, size_bytes := 2048, sort_order := 0 }],
           history := [] },
         [DeleteEvent.dbCommit, DeleteEvent.mediaDeleteAttempt]) := by
  have h := (c6_report_delete fixtureStore 1 true (by decide)).1
  rw [h]
  decide

/-- C9: for a valid role-gated page, a request identifying a registered
device whose role set is non-empty and lacks the requested role fails with
403; a device with an empty role set, or a request with no identifiable
device (no device id at all, an empty device id, or an id matching no
registered device), is granted access. -/
theorem c9_role_gate (devices : List Device) (role : String)
    (hdr cookie : Option String) (role_title : String)
    (hrole : WEB_APP_ROLES.lookup (pyLower (pyStrip role)) = some role_title) :
    (∀ s d, pyOrStr hdr cookie = some s → s ≠ "" →
      devices.find? (fun d' => d'.device_id == pyStrip s) = some d →
      d.roles ≠ ∅ → pyLower (pyStrip role) ∉ d.roles →
      web_app_role devices role hdr cookie = Except.error 403) ∧
    (∀ s d, pyOrStr hdr cookie = some s → s ≠ "" →
      devices.find? (fun d' => d'.device_id == pyStrip s) = some d →
      d.roles = ∅ →
      web_app_role devices role hdr cookie = Except.ok role_title) ∧
    (pyOrStr hdr cookie = none →
      web_app_role devices role hdr cookie = Except.ok role_title) ∧
    (pyOrStr hdr cookie = some "" →
      web_app_role devices role hdr cookie = Except.ok role_title) ∧
    (∀ s, pyOrStr hdr cookie = some s → s ≠ "" →
      devices.find? (fun d' => d'.device_id == pyStrip s) = none →
      web_app_role devices role hdr cookie = Except.ok role_title) := by
  refine ⟨?_, ?_, ?_, ?_, ?_⟩
  · intro s d hs hne hfind hroles hnotin
    simp only [web_app_role, hrole, hs, if_neg hne, hfind]
    rw [if_pos ⟨hroles, hnotin⟩]
  · intro s d hs hne hfind hroles
    simp only [web_app_role, hrole, hs, if_neg hne, hfind]
    rw [if_neg (by simp [hroles])]
  · intro hs
    simp only [web_app_role, hrole, hs]
  · intro hs
    simp only [web_app_role, hrole, hs, if_pos rfl]
    simp
  · intro s hs hne hfind
    simp only [web_app_role, hrole, hs, if_neg hne, hfind]

/-- Witness for C9 at a concrete device list: a role outside the device's
non-empty role set is rejected with 403; a device with no roles may open
any role page; an unknown device id is unrestricted. -/
theorem c9_role_gate_witness :
    web_app_role [fixtureActiveDevice] "maintenance" (some "dev-2") none =
      Except.error 403 ∧
    web_app_role [fixturePendingDevice] "maintenance" (some "dev-1") none =
      Except.ok "Údržba" ∧
    web_app_role [fixtureActiveDevice] "maintenance" none (some "ghost") =
      Except.ok "Údržba" := by
  have h := c9_role_gate [fixtureActiveDevice] "maintenance" (some "dev-2") none
    "Údržba" (by decide)
  have h2 := c9_role_gate [fixturePendingDevice] "maintenance" (some "dev-1") none
    "Údržba" (by decide)
  have h3 := c9_role_gate [fixtureActiveDevice] "maintenance" none (some "ghost")
    "Údržba" (by decide)
  refine ⟨h.1 "dev-2" fixtureActiveDevice (by decide) (by decide) (by decide)
      (by decide) (by decide),
    h2.2.1 "dev-1" fixturePendingDevice (by decide) (by decide) (by decide) (by decide),
    h3.2.2.2.2 "ghost" (by decide) (by decide) (by decide)⟩

/-- The generated thumbnail never exceeds 480 pixels on either edge. -/
theorem genThumbImage_le (img : ImageFile) :
    (genThumbImage img).width ≤ 480 ∧ (genThumbImage img).height ≤ 480 := by
  unfold genThumbImage
  by_cases h1 : img.width ≤ 480 ∧ img.height ≤ 480
  · rw [if_pos h1]
    exact ⟨h1.1, h1.2⟩
  · rw [if_neg h1]
    by_cases h2 : img.height ≤ img.width
    · rw [if_pos h2]
      have hw : 480 < img.width := by omega
      refine ⟨le_refl _, ?_⟩
      have hdiv : img.height * 480 / img.width ≤ 480 := by
        calc img.height * 480 / img.width ≤ img.width * 480 / img.width :=
              Nat.div_le_div_right (Nat.mul_le_mul_right _ h2)
          _ = 480 := Nat.mul_div_cancel_left _ (by omega)
      simp [hdiv]
    · rw [if_neg h2]
      have hh : 480 < img.height := by omega
      refine ⟨?_, le_refl _⟩
      have hdiv : img.width * 480 / img.height ≤ 480 := by
        calc img.width * 480 / img.height ≤ img.height * 480 / img.height :=
              Nat.div_le_div_right (Nat.mul_le_mul_right _ (by omega))
          _ = 480 := Nat.mul_div_cancel_left _ (by omega)
      simp [hdiv]

/-- C8: media resolution fails with 400 on an unrecognized variant and 404
on an unknown photo; when the thumbnail is absent but the original exists
it generates a thumbnail whose edges are at most 480 pixels (a progressive
JPEG at quality 75), persists it and serves it; a generation failure, or a
request for a variant with no file at all, yields 404. -/
theorem c8_media (photos : List ReportPhoto) (photo_id : Nat) (kind : String)
    (media : MediaState) (genFails : Bool) :
    (kind ≠ "thumb" → kind ≠ "original" →
      admin_media photos photo_id kind media genFails = Except.error 400) ∧
    (photos.find? (fun p => p.id == photo_id) = none →
      (kind = "thumb" ∨ kind = "original") →
      admin_media photos photo_id kind media genFails = Except.error 404) ∧
    (∀ ph img, photos.find? (fun p => p.id == photo_id) = some ph →
      kind = "thumb" → media.thumb = none → media.orig = some img →
      genFails = false →
      admin_media photos photo_id kind media genFails =
        Except.ok ({ media with thumb := some (genThumbImage img) }, genThumbImage img) ∧
      (genThumbImage img).width ≤ 480 ∧ (genThumbImage img).height ≤ 480 ∧
      (genThumbImage img).format = "JPEG" ∧
      (genThumbImage img).progressive = true ∧
      (genThumbImage img).quality = 75) ∧
    (∀ ph, photos.find? (fun p => p.id == photo_id) = some ph →
      kind = "thumb" → media.thumb = none → media.orig ≠ none →
      genFails = true →
      admin_media photos photo_id kind media genFails = Except.error 404) ∧
    (∀ ph, photos.find? (fun p => p.id == photo_id) = some ph →
      kind = "thumb" → media.thumb = none → media.orig = none →
      admin_media photos photo_id kind media genFails = Except.error 404) ∧
    (∀ ph, photos.find? (fun p => p.id == photo_id) = some ph →
      kind = "original" → media.orig = none →
      admin_media photos photo_id kind media genFails = Except.error 404) := by
  refine ⟨?_, ?_, ?_, ?_, ?_, ?_⟩
  · intro h1 h2
    unfold admin_media
    rw [if_pos ⟨h1, h2⟩]
  · intro hfind hk
    unfold admin_media
    rw [if_neg (by rcases hk with h | h <;> simp [h]), hfind]
  · intro ph img hfind hk hthumb horig hgen
    subst hk
    subst hgen
    refine ⟨?_, (genThumbImage_le img).1, (genThumbImage_le img).2, rfl, rfl, rfl⟩
    unfold admin_media
    rw [if_neg (by simp), hfind]
    simp only [if_pos rfl, hthumb, horig]
    rfl
  · intro ph hfind hk hthumb horig hgen
    subst hk
    subst hgen
    unfold admin_media
    rw [if_neg (by simp), hfind]
    simp only [if_pos rfl, hthumb]
    rcases Option.ne_none_iff_exists'.mp horig with ⟨img, himg⟩
    rw [himg]
    rfl
  · intro ph hfind hk hthumb horig
    subst hk
    unfold admin_media
    rw [if_neg (by simp), hfind]
    simp only [if_pos rfl, hthumb, horig]
    rfl
  · intro ph hfind hk horig
    subst hk
    unfold admin_media
    rw [if_neg (by simp), hfind]
    simp only [horig]
    rfl

/-- Witness for C8: the fixture photo with an existing original and no
thumbnail gets a 480x270 progressive JPEG generated and persisted; a bad
variant name is a 400; an unknown photo id is a 404. -/
theorem c8_media_witness :
    admin_media [{ id := 10, report_id := 1, size_bytes := 4096, sort_order := 0 }] 10
        "thumb" { orig := some fixtureImage, thumb := none } false =
      Except.ok ({ orig := some fixtureImage,
                   thumb := some { width := 480, height := 270, format := "JPEG",
                                   progressive := true, quality := 75 } },
                 { width := 480, height := 270, format := "JPEG",
                   progressive := true, quality := 75 }) ∧
    admin_media [] 10 "huge" { orig := none, thumb := none } false = Except.error 400 ∧
    admin_media [] 10 "thumb" { orig := none, thumb := none } false = Except.error 404 := by
  have h := c8_media [{ id := 10, report_id := 1, size_bytes := 4096, sort_order := 0 }]
    10 "thumb" { orig := some fixtureImage, thumb := none } false
  have h2 := c8_media ([] : List ReportPhoto) 10 "huge"
    { orig := none, thumb := none } false
  have h3 := c8_media ([] : List ReportPhoto) 10 "thumb"
    { orig := none, thumb := none } false
  refine ⟨?_, h2.1 (by decide) (by decide), h3.2.1 (by decide) (Or.inl rfl)⟩
  have hmain := (h.2.2.1 { id := 10, report_id := 1, size_bytes := 4096, sort_order := 0 }
    fixtureImage (by decide) rfl rfl rfl rfl).1
  rw [hmain]
  decide

/-! ## Listing lemmas -/

theorem except_bind_ok {α β : Type} (a : α) (f : α → Except Nat β) :
    (Except.ok a >>= f) = f a := rfl

theorem except_bind_err {α β : Type} (e : Nat) (f : α → Except Nat β) :
    ((Except.error e : Except Nat α) >>= f) = Except.error e := rfl

theorem filterCategory_ok_guard {c : Option String} {rows l : List Report}
    (h : filterCategory c rows = Except.ok l) : catGuard c = true := by
  unfold filterCategory at h
  unfold catGuard
  by_cases hc : truthy c = true
  · rw [if_pos hc] at h
    cases hp : parseReportType (c.getD "") with
    | none => rw [hp] at h; cases h
    | some t => simp [hc, hp]
  · simp [hc]

theorem filterCategory_err_guard {c : Option String} {rows : List Report} {e : Nat}
    (h : filterCategory c rows = Except.error e) : catGuard c = false ∧ e = 400 := by
  unfold filterCategory at h
  unfold catGuard
  by_cases hc : truthy c = true
  · rw [if_pos hc] at h
    cases hp : parseReportType (c.getD "") with
    | none => rw [hp] at h; cases h; simp [hc, hp]
    | some t => rw [hp] at h; cases h
  · rw [if_neg hc] at h; cases h

theorem filterCategory_total (c : Option String) (rows : List Report)
    (h : catGuard c = true) : ∃ l, filterCategory c rows = Except.ok l := by
  unfold catGuard at h
  unfold filterCategory
  by_cases hc : truthy c = true
  · rw [if_pos hc]
    simp only [hc, Bool.not_true, Bool.false_or] at h
    rcases Option.isSome_iff_exists.mp h with ⟨t, ht⟩
    rw [ht]
    exact ⟨_, rfl⟩
  · rw [if_neg hc]
    exact ⟨rows, rfl⟩

theorem filterStatus_ok_guard {s : Option String} {rows l : List Report}
    (h : filterStatus s rows = Except.ok l) : statusGuard s = true := by
  unfold filterStatus at h
  unfold statusGuard
  by_cases hc : truthy s = true
  · rw [if_pos hc] at h
    cases hp : parseReportStatus (s.getD "") with
    | none => rw [hp] at h; cases h
    | some t => simp [hc, hp]
  · simp [hc]

theorem filterStatus_err_guard {s : Option String} {rows : List Report} {e : Nat}
    (h : filterStatus s rows = Except.error e) : statusGuard s = false ∧ e = 400 := by
  unfold filterStatus at h
  unfold statusGuard
  by_cases hc : truthy s = true
  · rw [if_pos hc] at h
    cases hp : parseReportStatus (s.getD "") with
    | none => rw [hp] at h; cases h; simp [hc, hp]
    | some t => rw [hp] at h; cases h
  · rw [if_neg hc] at h; cases h

theorem filterStatus_total (s : Option String) (rows : List Report)
    (h : statusGuard s = true) : ∃ l, filterStatus s rows = Except.ok l := by
  unfold statusGuard at h
  unfold filterStatus
  by_cases hc : truthy s = true
  · rw [if_pos hc]
    simp only [hc, Bool.not_true, Bool.false_or] at h
    rcases Option.isSome_iff_exists.mp h with ⟨t, ht⟩
    rw [ht]
    exact ⟨_, rfl⟩
  · rw [if_neg hc]
    exact ⟨rows, rfl⟩

theorem filterRoom_ok_guard {r : Option Int} {rows l : List Report}
    (h : filterRoom r rows = Except.ok l) : roomGuard r = true := by
  cases r with
  | none => rfl
  | some rm =>
    simp only [filterRoom] at h
    simp only [roomGuard]
    by_cases hr : rm ∈ ROOMS_ALLOWED
    · simp [hr]
    · rw [if_neg hr] at h; cases h

theorem filterRoom_err_guard {r : Option Int} {rows : List Report} {e : Nat}
    (h : filterRoom r rows = Except.error e) : roomGuard r = false ∧ e = 400 := by
  cases r with
  | none => cases h
  | some rm =>
    simp only [filterRoom] at h
    simp only [roomGuard]
    by_cases hr : rm ∈ ROOMS_ALLOWED
    · rw [if_pos hr] at h; cases h
    · rw [if_neg hr] at h; cases h; simp [hr]

theorem filterRoom_total (r : Option Int) (rows : List Report)
    (h : roomGuard r = true) : ∃ l, filterRoom r rows = Except.ok l := by
  cases r with
  | none => exact ⟨rows, rfl⟩
  | some rm =>
    simp only [roomGuard] at h
    simp only [filterRoom]
    rw [if_pos (of_decide_eq_true h)]
    exact ⟨_, rfl⟩

theorem filterDate_ok_guard {d : Option String} {rows l : List Report}
    (h : filterDate d rows = Except.ok l) : dateGuard d = true := by
  unfold filterDate at h
  unfold dateGuard
  by_cases hc : truthy d = true
  · rw [if_pos hc] at h
    cases hp : parseIsoDate (d.getD "") with
    | none => rw [hp] at h; cases h
    | some t => simp [hc, hp]
  · simp [hc]

theorem filterDate_err_guard {d : Option String} {rows : List Report} {e : Nat}
    (h : filterDate d rows = Except.error e) : dateGuard d = false ∧ e = 400 := by
  unfold filterDate at h
  unfold dateGuard
  by_cases hc : truthy d = true
  · rw [if_pos hc] at h
    cases hp : parseIsoDate (d.getD "") with
    | none => rw [hp] at h; cases h; simp [hc, hp]
    | some t =>
      rw [hp] at h
      rcases t with ⟨y, m, dd⟩
      cases h
  · rw [if_neg hc] at h; cases h

theorem filterDate_total (d : Option String) (rows : List Report)
    (h : dateGuard d = true) : ∃ l, filterDate d rows = Except.ok l := by
  unfold dateGuard at h
  unfold filterDate
  by_cases hc : truthy d = true
  · rw [if_pos hc]
    simp only [hc, Bool.not_true, Bool.false_or] at h
    rcases Option.isSome_iff_exists.mp h with ⟨t, ht⟩
    rcases t with ⟨y, m, dd⟩
    rw [ht]
    exact ⟨_, rfl⟩
  · rw [if_neg hc]
    exact ⟨rows, rfl⟩

theorem sortRows_ok_guard {s : String} {rows l : List Report}
    (h : sortRows s rows = Except.ok l) : sortGuard s = true := by
  unfold sortRows at h
  unfold sortGuard sortKeys
  by_cases h1 : s = "created_desc"
  · simp [h1]
  by_cases h2 : s = "created_asc"
  · simp [h2]
  by_cases h3 : s = "room_asc"
  · simp [h3]
  by_cases h4 : s = "room_desc"
  · simp [h4]
  by_cases h5 : s = "status_asc"
  · simp [h5]
  by_cases h6 : s = "status_desc"
  · simp [h6]
  rw [if_neg h1, if_neg h2, if_neg h3, if_neg h4, if_neg h5, if_neg h6] at h
  cases h

theorem sortRows_err_guard {s : String} {rows : List Report} {e : Nat}
    (h : sortRows s rows = Except.error e) : sortGuard s = false ∧ e = 400 := by
  unfold sortRows at h
  unfold sortGuard sortKeys
  by_cases h1 : s = "created_desc"
  · rw [if_pos h1] at h; cases h
  by_cases h2 : s = "created_asc"
  · rw [if_neg h1, if_pos h2] at h; cases h
  by_cases h3 : s = "room_asc"
  · rw [if_neg h1, if_neg h2, if_pos h3] at h; cases h
  by_cases h4 : s = "room_desc"
  · rw [if_neg h1, if_neg h2, if_neg h3, if_pos h4] at h; cases h
  by_cases h5 : s = "status_asc"
  · rw [if_neg h1, if_neg h2, if_neg h3, if_neg h4, if_pos h5] at h; cases h
  by_cases h6 : s = "status_desc"
  · rw [if_neg h1, if_neg h2, if_neg h3, if_neg h4, if_neg h5, if_pos h6] at h; cases h
  rw [if_neg h1, if_neg h2, if_neg h3, if_neg h4, if_neg h5, if_neg h6] at h
  cases h
  simp [h1, h2, h3, h4, h5, h6]

theorem sortRows_total (s : String) (rows : List Report)
    (h : sortGuard s = true) : ∃ l, sortRows s rows = Except.ok l := by
  unfold sortRows
  by_cases h1 : s = "created_desc"
  · rw [if_pos h1]; exact ⟨_, rfl⟩
  by_cases h2 : s = "created_asc"
  · rw [if_neg h1, if_pos h2]; exact ⟨_, rfl⟩
  by_cases h3 : s = "room_asc"
  · rw [if_neg h1, if_neg h2, if_pos h3]; exact ⟨_, rfl⟩
  by_cases h4 : s = "room_desc"
  · rw [if_neg h1, if_neg h2, if_neg h3, if_pos h4]; exact ⟨_, rfl⟩
  by_cases h5 : s = "status_asc"
  · rw [if_neg h1, if_neg h2, if_neg h3, if_neg h4, if_pos h5]; exact ⟨_, rfl⟩
  by_cases h6 : s = "status_desc"
  · rw [if_neg h1, if_neg h2, if_neg h3, if_neg h4, if_neg h5, if_pos h6]; exact ⟨_, rfl⟩
  exfalso
  unfold sortGuard sortKeys at h
  simp [h1, h2, h3, h4, h5, h6] at h

theorem sortRows_perm {s : String} {rows l : List Report}
    (h : sortRows s rows = Except.ok l) : l.Perm rows := by
  unfold sortRows at h
  by_cases h1 : s = "created_desc"
  · rw [if_pos h1] at h; cases h; exact List.perm_insertionSort _ _
  by_cases h2 : s = "created_asc"
  · rw [if_neg h1, if_pos h2] at h; cases h; exact List.perm_insertionSort _ _
  by_cases h3 : s = "room_asc"
  · rw [if_neg h1, if_neg h2, if_pos h3] at h; cases h; exact List.perm_insertionSort _ _
  by_cases h4 : s = "room_desc"
  · rw [if_neg h1, if_neg h2, if_neg h3, if_pos h4] at h; cases h
    exact List.perm_insertionSort _ _
  by_cases h5 : s = "status_asc"
  · rw [if_neg h1, if_neg h2, if_neg h3, if_neg h4, if_pos h5] at h; cases h
    exact List.perm_insertionSort _ _
  by_cases h6 : s = "status_desc"
  · rw [if_neg h1, if_neg h2, if_neg h3, if_neg h4, if_neg h5, if_pos h6] at h; cases h
    exact List.perm_insertionSort _ _
  rw [if_neg h1, if_neg h2, if_neg h3, if_neg h4, if_neg h5, if_neg h6] at h
  cases h

theorem admin_reports_list_ok {db : List Report} {p : ListParams} {l : List Report}
    (h : filteredSorted db p = Except.ok l) :
    admin_reports_list db p =
      Except.ok { total := l.length,
                  pages_total := pagesTotalCalc l.length (clampPerPage p.per_page),
                  page := clampPage p.page, per_page := clampPerPage p.per_page,
                  rows := pageSlice l (clampPage p.page) (clampPerPage p.per_page) } := by
  simp only [admin_reports_list, h, except_bind_ok]
  rfl

theorem admin_reports_list_err {db : List Report} {p : ListParams} {e : Nat}
    (h : filteredSorted db p = Except.error e) :
    admin_reports_list db p = Except.error e := by
  simp only [admin_reports_list, h, except_bind_err]

theorem filtersOnly_guards (db : List Report) (p : ListParams) :
    (∃ l, filtersOnly db p = Except.ok l ∧
      (catGuard (effectiveCategory p.category p.type) && statusGuard p.status &&
        roomGuard p.room && dateGuard p.date) = true) ∨
    (filtersOnly db p = Except.error 400 ∧
      (catGuard (effectiveCategory p.category p.type) && statusGuard p.status &&
        roomGuard p.room && dateGuard p.date) = false) := by
  cases hc : filterCategory (effectiveCategory p.category p.type) db with
  | error e =>
    rcases filterCategory_err_guard hc with ⟨hg, he⟩
    subst he
    right
    refine ⟨?_, by simp [hg]⟩
    simp only [filtersOnly, hc, except_bind_err]
  | ok l1 =>
    have hg1 := filterCategory_ok_guard hc
    cases hs : filterStatus p.status l1 with
    | error e =>
      rcases filterStatus_err_guard hs with ⟨hg, he⟩
      subst he
      right
      refine ⟨?_, by simp [hg]⟩
      simp only [filtersOnly, hc, except_bind_ok, hs, except_bind_err]
    | ok l2 =>
      have hg2 := filterStatus_ok_guard hs
      cases hr : filterRoom p.room l2 with
      | error e =>
        rcases filterRoom_err_guard hr with ⟨hg, he⟩
        subst he
        right
        refine ⟨?_, by simp [hg]⟩
        simp only [filtersOnly, hc, except_bind_ok, hs, hr, except_bind_err]
      | ok l3 =>
        have hg3 := filterRoom_ok_guard hr
        cases hd : filterDate p.date l3 with
        | error e =>
          rcases filterDate_err_guard hd with ⟨hg, he⟩
          subst he
          right
          refine ⟨?_, by simp [hg]⟩
          simp only [filtersOnly, hc, except_bind_ok, hs, hr, hd, except_bind_err]
        | ok l4 =>
          have hg4 := filterDate_ok_guard hd
          left
          refine ⟨l4, ?_, by simp [hg1, hg2, hg3, hg4]⟩
          simp only [filtersOnly, hc, except_bind_ok, hs, hr, hd]

/-- C4: the report listing fails (with a 400 client-input error and no
state change — the model is a pure read) exactly when given an
unrecognized category, an unrecognized status, a room outside the allowed
set, an unparsable date, or an unrecognized sort key; on all recognized
inputs it succeeds. -/
theorem c4_listing_errors (db : List Report) (p : ListParams) :
    ((∃ res, admin_reports_list db p = Except.ok res) ↔ listingParamsValid p = true) ∧
    (listingParamsValid p = false → admin_reports_list db p = Except.error 400) := by
  have main : (listingParamsValid p = true ∧ ∃ res, admin_reports_list db p = Except.ok res) ∨
      (listingParamsValid p = false ∧ admin_reports_list db p = Except.error 400) := by
    rcases filtersOnly_guards db p with ⟨l, hok, hg⟩ | ⟨herr, hg⟩
    · cases hsort : sortRows p.sort l with
      | error e =>
        rcases sortRows_err_guard hsort with ⟨hsg, he⟩
        subst he
        right
        refine ⟨by simp [listingParamsValid, hsg], ?_⟩
        exact admin_reports_list_err
          (by simp only [filteredSorted, hok, except_bind_ok, hsort])
      | ok srows =>
        have hsg := sortRows_ok_guard hsort
        left
        have hfs : filteredSorted db p = Except.ok srows := by
          simp only [filteredSorted, hok, except_bind_ok, hsort]
        refine ⟨?_, ⟨_, admin_reports_list_ok hfs⟩⟩
        unfold listingParamsValid
        rw [hg, hsg]
        rfl
    · right
      refine ⟨by simp [listingParamsValid, hg], ?_⟩
      exact admin_reports_list_err
        (by simp only [filteredSorted, herr, except_bind_err])
  constructor
  · constructor
    · rintro ⟨res, hres⟩
      rcases main with ⟨hv, _⟩ | ⟨_, herr⟩
      · exact hv
      · rw [hres] at herr
        cases herr
    · intro hv
      rcases main with ⟨_, hex⟩ | ⟨hv', _⟩
      · exact hex
      · rw [hv] at hv'
        cases hv'
  · intro hv
    rcases main with ⟨hv', _⟩ | ⟨_, herr⟩
    · rw [hv] at hv'
      cases hv'
    · exact herr

/-- Witness for C4: the fixture database succeeds on fully recognized
parameters and fails with 400 on a bogus sort key. -/
theorem c4_listing_errors_witness :
    (∃ res, admin_reports_list fixtureDb
      { category := some "FIND", status := some "OPEN", room := some 101,
        date := some "1970-01-01" } = Except.ok res) ∧
    admin_reports_list fixtureDb { sort := "newest" } = Except.error 400 :=
  ⟨(c4_listing_errors fixtureDb
      { category := some "FIND", status := some "OPEN", room := some 101,
        date := some "1970-01-01" }).1.mpr (by decide),
   (c4_listing_errors fixtureDb { sort := "newest" }).2 (by decide)⟩

theorem listing_congr (db : List Report) (p q : ListParams)
    (hcat : effectiveCategory p.category p.type = effectiveCategory q.category q.type)
    (hs : p.status = q.status) (hr : p.room = q.room) (hd : p.date = q.date)
    (hsort : p.sort = q.sort) (hpage : p.page = q.page)
    (hpp : p.per_page = q.per_page) :
    admin_reports_list db p = admin_reports_list db q := by
  simp only [admin_reports_list, filteredSorted, filtersOnly, hcat, hs, hr, hd,
    hsort, hpage, hpp]

/-- C10: the listing accepts the legacy `type` query parameter as an alias
for `category`: when `category` is unset (falsy) and `type` is supplied,
`type` is used as the category filter; whenever `category` is set, `type`
is ignored. -/
theorem c10_type_alias (db : List Report) (p : ListParams) :
    (truthy p.category = false → truthy p.type = true →
      admin_reports_list db p =
        admin_reports_list db { p with category := p.type }) ∧
    (truthy p.category = true → ∀ t t' : Option String,
      admin_reports_list db { p with type := t } =
        admin_reports_list db { p with type := t' }) := by
  constructor
  · intro hc ht
    refine listing_congr db _ _ ?_ rfl rfl rfl rfl rfl rfl
    show effectiveCategory p.category p.type = effectiveCategory p.type p.type
    unfold effectiveCategory
    rw [if_pos ⟨by simp [hc], by simp [ht]⟩, if_neg (by simp [ht])]
  · intro hc t t'
    refine listing_congr db _ _ ?_ rfl rfl rfl rfl rfl rfl
    show effectiveCategory p.category t = effectiveCategory p.category t'
    unfold effectiveCategory
    rw [if_neg (by simp [hc]), if_neg (by simp [hc])]

/-- Witness for C10: with no `category`, `type=FIND` filters like
`category=FIND`; with `category=ISSUE` set, `type` is ignored. -/
theorem c10_type_alias_witness :
    admin_reports_list fixtureDb { type := some "FIND" } =
      admin_reports_list fixtureDb { category := some "FIND", type := some "FIND" } ∧
    admin_reports_list fixtureDb { category := some "ISSUE", type := some "FIND" } =
      admin_reports_list fixtureDb { category := some "ISSUE", type := none } :=
  ⟨(c10_type_alias fixtureDb { type := some "FIND" }).1 (by decide) (by decide),
   (c10_type_alias fixtureDb { category := some "ISSUE" }).2 (by decide)
     (some "FIND") none⟩

theorem clampPerPage_pos (x : Int) : 0 < clampPerPage x := by
  unfold clampPerPage
  omega

/-- C2 (amended): the listing reports `pages_total = max 1 ⌈n/per_page⌉`
for the clamped page size; the returned page is a permutation-compatible
slice of the sorted filtered rows, and — provided the total page count
does not exceed the code's upper page clamp of 10000 — requesting pages 1
through `pages_total` succeeds, each returning the corresponding slice,
and concatenating them in order reproduces the full filtered, sorted
result (a permutation of the matching rows, hence each matching report
exactly once). -/
theorem c2_pagination (db : List Report) (p : ListParams)
    (mrows srows : List Report)
    (hfil : filtersOnly db p = Except.ok mrows)
    (hsort : sortRows p.sort mrows = Except.ok srows) :
    pagesTotalCalc srows.length (clampPerPage p.per_page) =
      max 1 ((srows.length + clampPerPage p.per_page - 1) / clampPerPage p.per_page) ∧
    srows.Perm mrows ∧
    (pagesTotalCalc srows.length (clampPerPage p.per_page) ≤ 10000 →
      (∀ i : Nat, i < pagesTotalCalc srows.length (clampPerPage p.per_page) →
        admin_reports_list db { p with page := ((i : Int) + 1) } =
          Except.ok { total := srows.length,
                      pages_total := pagesTotalCalc srows.length (clampPerPage p.per_page),
                      page := i + 1, per_page := clampPerPage p.per_page,
                      rows := pageSlice srows (i + 1) (clampPerPage p.per_page) }) ∧
      (List.range (pagesTotalCalc srows.length (clampPerPage p.per_page))).flatMap
          (fun i => pageSlice srows (i + 1) (clampPerPage p.per_page)) = srows) := by
  have hpp : 0 < clampPerPage p.per_page := clampPerPage_pos _
  refine ⟨pagesTotalCalc_eq_ceil _ _ hpp, sortRows_perm hsort, fun hT => ⟨?_, ?_⟩⟩
  · intro i hi
    have hfs : filteredSorted db { p with page := ((i : Int) + 1) } =
        Except.ok srows := by
      have h1 : filtersOnly db { p with page := ((i : Int) + 1) } =
          Except.ok mrows := hfil
      simp only [filteredSorted, h1, except_bind_ok]
      exact hsort
    rw [admin_reports_list_ok hfs]
    have hcp : clampPage ((i : Int) + 1) = i + 1 := by
      have : i + 1 ≤ 10000 := by omega
      unfold clampPage
      omega
    have hcpp : clampPerPage (ListParams.per_page { p with page := ((i : Int) + 1) }) =
        clampPerPage p.per_page := rfl
    rw [show ListParams.page { p with page := ((i : Int) + 1) } = ((i : Int) + 1) from rfl,
      hcp, hcpp]
  · show (List.range (pagesTotalCalc srows.length (clampPerPage p.per_page))).flatMap
        (fun i => (srows.drop (i * clampPerPage p.per_page)).take (clampPerPage p.per_page)) =
      srows
    rw [flatMap_range_drop_take]
    exact List.take_of_length_le (pagesTotalCalc_mul_ge _ _ hpp)

/-- Witness for C2 on the two-report fixture database: one page of 25
holds both reports, sorted by creation time descending. -/
theorem c2_pagination_witness :
    pagesTotalCalc 2 25 = max 1 ((2 + 25 - 1) / 25) ∧
    (List.range (pagesTotalCalc 2 25)).flatMap
        (fun i => pageSlice [fixtureReportB, fixtureReport] (i + 1) 25) =
      [fixtureReportB, fixtureReport] := by
  have h := c2_pagination fixtureDb {} [fixtureReport, fixtureReportB]
    [fixtureReportB, fixtureReport] (by decide) (by decide)
  exact ⟨h.1, (h.2.2 (by decide)).2⟩

theorem cex_filteredSorted : filteredSorted cexDb cexParams = Except.ok cexSorted := rfl

theorem cexSorted_length : cexSorted.length = 100001 := by
  show (cexDb.insertionSort cmpCreatedDesc).length = 100001
  rw [List.length_insertionSort]
  rw [show cexDb = List.replicate 100001 fixtureReport from rfl, List.length_replicate]

theorem cexPageRows_eq (k : Nat) :
    cexPageRows k = pageSlice cexSorted (clampPage (k : Int)) 10 := by
  unfold cexPageRows
  rw [admin_reports_list_ok
    (show filteredSorted cexDb { cexParams with page := (k : Int) } = Except.ok cexSorted
      from cex_filteredSorted)]
  rfl

theorem cexPageRows_len (i : Nat) (h : i < 10001) :
    (cexPageRows (i + 1)).length = 10 := by
  rw [cexPageRows_eq]
  unfold pageSlice
  rw [List.length_take, List.length_drop, cexSorted_length]
  have hcp : clampPage (((i + 1 : Nat)) : Int) = min (i + 1) 10000 := by
    unfold clampPage
    omega
  rw [hcp]
  omega

/-- Counterexample to C2 as stated: with 100001 matching reports and page
size 10 the listing reports 10001 pages, but the code clamps the page
number to 10000, so page 10001 returns page 10000's rows again: the
concatenation of pages 1..10001 has 100010 rows, not 100001, and so does
not reproduce the filtered, sorted result with each report exactly once. -/
theorem c2_pagination_counterexample :
    admin_reports_list cexDb cexParams =
      Except.ok { total := 100001, pages_total := 10001, page := 1, per_page := 10,
                  rows := pageSlice cexSorted 1 10 } ∧
    filteredSorted cexDb cexParams = Except.ok cexSorted ∧
    ((List.range 10001).flatMap (fun i => cexPageRows (i + 1))).length = 100010 ∧
    cexSorted.length = 100001 ∧
    (List.range 10001).flatMap (fun i => cexPageRows (i + 1)) ≠ cexSorted := by
  have hB : ((List.range 10001).flatMap (fun i => cexPageRows (i + 1))).length = 100010 := by
    rw [List.length_flatMap]
    have hmap : List.map (List.length ∘ fun i => cexPageRows (i + 1)) (List.range 10001) =
        List.map (fun _ => (10 : Nat)) (List.range 10001) := by
      refine List.map_congr_left ?_
      intro i hi
      rw [Function.comp_apply]
      exact cexPageRows_len i (List.mem_range.mp hi)
    rw [hmap, List.map_const', List.length_range, List.sum_replicate]
    simp
  have hA : admin_reports_list cexDb cexParams =
      Except.ok { total := 100001, pages_total := 10001, page := 1, per_page := 10,
                  rows := pageSlice cexSorted 1 10 } := by
    rw [admin_reports_list_ok cex_filteredSorted, cexSorted_length]
    rw [show clampPage cexParams.page = 1 from rfl,
      show clampPerPage cexParams.per_page = 10 from rfl,
      show pagesTotalCalc 100001 10 = 10001 from rfl]
  refine ⟨hA, cex_filteredSorted, hB, cexSorted_length, ?_⟩
  intro heq
  have hlen := congrArg List.length heq
  rw [hB, cexSorted_length] at hlen
  exact absurd hlen (by decide)
